import Mathlib

/-
Verification of the user request-handler layer of the yfa-nodejs code
(src/code/yfa/src/routes/users.js), shallowly embedded in Lean 4.

JavaScript string-or-missing values are modelled by `JsVal String`
(undefined / null / string), callback results by `Except`/pairs, and each
route handler becomes a pure function from the request and a store-behaviour
oracle to the emitted response together with the ordered list of store calls
it makes.
-/

set_option autoImplicit false

namespace Yfa

/-- A JavaScript value of underlying type `α` that may also be `undefined`
or `null` (e.g. a missing body field is `undef`, a JSON null is `null`). -/
inductive JsVal (α : Type) where
  | undef
  | null
  | val (a : α)
  deriving DecidableEq

/-- JavaScript truthiness for string-valued slots: `undefined`, `null` and
the empty string are falsy; every non-empty string is truthy. -/
def JsVal.truthy : JsVal String → Bool
  | .undef => false
  | .null => false
  | .val s => s ≠ ""

/-- JavaScript `String(x)` coercion, as applied by `RegExp.prototype.test`
to a non-string argument: `String(undefined) = "undefined"`,
`String(null) = "null"`. -/
def jsToString : JsVal String → String
  | .undef => "undefined"
  | .null => "null"
  | .val s => s

/-- JavaScript `a || b` for string-valued slots: keep `a` when truthy,
otherwise fall back to `b`. -/
def jsOr (a b : JsVal String) : JsVal String :=
  if a.truthy then a else b

/-- Membership of the regex character class `[a-zA-Z]`. -/
def isAsciiLetter (c : Char) : Bool :=
  (decide ('a' ≤ c) && decide (c ≤ 'z')) || (decide ('A' ≤ c) && decide (c ≤ 'Z'))

/-- Membership of the regex character class `[a-zA-Z0-9_]`. -/
def isWordChar (c : Char) : Bool :=
  isAsciiLetter c || (decide ('0' ≤ c) && decide (c ≤ '9')) || decide (c = '_')

/-- The test `/^[a-zA-Z]{1}[a-zA-Z0-9_]{4,15}$/.test s` from users.js line
163, character by character: a leading ASCII letter followed by 4 to 15
word characters, anchored at both ends. -/
def usernameValidChars : List Char → Bool
  | [] => false
  | c :: rest =>
      isAsciiLetter c && (decide (4 ≤ rest.length) &&
        (decide (rest.length ≤ 15) && rest.all isWordChar))

/-- The username validator used by the Update handler. -/
def usernameValid (s : String) : Bool :=
  usernameValidChars s.data

/-- The language of the pattern `^[A-Za-z][A-Za-z0-9_]{4,15}$` stated
declaratively, as in the specification: some leading ASCII letter followed
by a tail of 4 to 15 word characters (total length 5 to 16). -/
def matchesUsernamePattern (s : String) : Prop :=
  ∃ c rest, s.data = c :: rest ∧ isAsciiLetter c = true ∧
    4 ≤ rest.length ∧ rest.length ≤ 15 ∧ ∀ x ∈ rest, isWordChar x = true

/-- C1: the username validator used by Update accepts exactly the strings
matching `^[A-Za-z][A-Za-z0-9_]{4,15}$`, and rejects every other string,
in particular the empty string, strings starting with a digit or an
underscore, and strings of length 4 or 17. -/
theorem username_validator_exact :
    (∀ s : String, usernameValid s = true ↔ matchesUsernamePattern s) ∧
    usernameValid "" = false ∧
    usernameValid "1abcd" = false ∧
    usernameValid "_abcd" = false ∧
    usernameValid "abcd" = false ∧
    usernameValid "abcdefghijklmnopq" = false := by
  refine ⟨?_, by decide, by decide, by decide, by decide, by decide⟩
  intro s
  unfold usernameValid matchesUsernamePattern
  cases h : s.data with
  | nil => simp [usernameValidChars]
  | cons c rest =>
    simp only [usernameValidChars, Bool.and_eq_true, decide_eq_true_eq,
      List.all_eq_true]
    constructor
    · rintro ⟨h1, h2, h3, h4⟩
      exact ⟨c, rest, rfl, h1, h2, h3, h4⟩
    · rintro ⟨c', rest', heq, h1, h2, h3, h4⟩
      cases heq
      exact ⟨h1, h2, h3, h4⟩

/-- The user-state enumeration `User.States` of the user model; the Update
handler assigns `States.ONLINE`. -/
inductive States where
  | ONLINE
  | OFFLINE
  deriving DecidableEq

/-- A user document, with the attributes read or written by the handlers.
String-valued profile fields may be `undefined` or `null` on the document. -/
structure User where
  mid : String
  facebookId : String
  username : JsVal String
  firstName : JsVal String
  lastName : JsVal String
  email : JsVal String
  avatar : JsVal String
  state : States
  registrationDone : Bool
  deriving DecidableEq

/-- The JSON body of an Update request. Every field may be absent
(`undef`); `id` is a client-supplied identifier that the handler never
reads. -/
structure UpdateBody where
  id : JsVal String
  username : JsVal String
  firstName : JsVal String
  lastName : JsVal String
  email : JsVal String
  avatar : JsVal String
  deriving DecidableEq

/-- The document returned by `User.getMessages`: its `messages` field may
be `null`, absent (`undefined`), or a list. -/
structure MsgDoc where
  mid : String
  messages : JsVal (List String)
  deriving DecidableEq

/-- A JSON response body, covering the shapes the handlers emit. -/
inductive Body where
  | user (u : User)
  | listing (total : Nat) (results : List User)
  | msgDoc (d : MsgDoc)
  | raw (s : String)
  deriving DecidableEq

/-- A response emission: `res.problem(status, title, detail)` (with
`title`/`detail` possibly not supplied) or `res.json(status, body?)`. -/
inductive Response where
  | problem (status : Nat) (title detail : Option String)
  | json (status : Nat) (body : Option Body)
  deriving DecidableEq

namespace HttpStatus

def OK : Nat := 200

def NO_CONTENT : Nat := 204

def BAD_REQUEST : Nat := 400

def METHOD_NOT_ALLOWED : Nat := 405

def INTERNAL_SERVER_ERROR : Nat := 500

end HttpStatus

/-- `n` is in the HTTP success (2xx) status class. -/
def isSuccessStatus (n : Nat) : Bool :=
  decide (200 ≤ n) && decide (n < 300)

/-- One call made by a handler to the user store, in the order issued. -/
inductive StoreCall where
  | publicList (skip take : JsVal String)
  | count
  | fb (externalId : String)
  | save (u : User)
  | remove (u : User)
  | getMessages (mid : String)
  deriving DecidableEq

/-- The store's behaviour for one request, as an oracle: each method's
callback arguments. `Except.error ()` is a truthy `err` callback argument;
`Except.ok none` a `null` result. For `save`, `remove` and `count` the
callback receives an error slot and a result, as a pair. -/
structure Store where
  fb : String → Except Unit (Option User)
  save : User → Option String × User
  remove : User → Option String × Body
  publicList : JsVal String → JsVal String → Except Unit (Option (List User))
  count : Option String × Option Nat
  getMessages : String → Except Unit (Option MsgDoc)

/-- The request context a handler receives: the authenticated principal's
`req.user.facebookId`, the path parameter `req.params.mid`, the parsed
body, and the query parameters used by List. -/
structure Request where
  userFacebookId : String
  paramsMid : String
  body : UpdateBody
  querySkip : JsVal String
  queryTake : JsVal String

/-- The field assignments users.js lines 174-179 applies to the resolved
user in every non-rejecting Update: `registrationDone = true`; `firstName`,
`lastName`, `email` from the body under `||`-fallback to the prior value;
`state = ONLINE`; `avatar` from the body unconditionally. -/
def applyCommon (user : User) (upd : UpdateBody) : User :=
  { user with
    registrationDone := true
    firstName := jsOr upd.firstName user.firstName
    lastName := jsOr upd.lastName user.lastName
    email := jsOr upd.email user.email
    state := States.ONLINE
    avatar := upd.avatar }

/-- The user document passed to `user.save` by Update: the username is
reassigned from the body exactly when `registrationDone` was false, then
the common assignments are applied. -/
def mergedUser (user : User) (upd : UpdateBody) : User :=
  applyCommon
    (if user.registrationDone then user else { user with username := upd.username })
    upd

/-- users.js `exports.create` (lines 15-19): always a 405 problem, no
store access. -/
def create (_store : Store) (_req : Request) : Response × List StoreCall :=
  (Response.problem HttpStatus.METHOD_NOT_ALLOWED
    (some "You\x27re not allowed to create users on this system")
    (some "Users are created via 3rd party (Facebook) authentication"), [])

/-- users.js `exports.list` (lines 30-49): `User.publicList(skip, take)`,
then on error a 500 problem; on a `null` or empty result a no-content
JSON response; otherwise `User.count({}, ...)` and a 200 response whose
`meta.total` is `count || 0`. -/
def list (store : Store) (req : Request) : Response × List StoreCall :=
  match store.publicList req.querySkip req.queryTake with
  | Except.error _ =>
      (Response.problem HttpStatus.INTERNAL_SERVER_ERROR
        (some "Unexpected problem")
        (some "Could not list users due to internal error"),
       [StoreCall.publicList req.querySkip req.queryTake])
  | Except.ok none =>
      (Response.json HttpStatus.NO_CONTENT none,
       [StoreCall.publicList req.querySkip req.queryTake])
  | Except.ok (some results) =>
      if results.length = 0 then
        (Response.json HttpStatus.NO_CONTENT none,
         [StoreCall.publicList req.querySkip req.queryTake])
      else
        (Response.json HttpStatus.OK
          (some (Body.listing (store.count.2.getD 0) results)),
         [StoreCall.publicList req.querySkip req.queryTake, StoreCall.count])

/-- users.js `exports.update` (lines 149-185): resolve the acting user via
`User.fb(req.user.facebookId)`; on error or `null` a 400 problem; if
`registrationDone` is falsy, reject with a 400 "Invalid Username" problem
unless the regex accepts the (string-coerced) body username, else assign
it; apply the common field assignments; `user.save` and respond 200 with
the save callback's user, ignoring the callback's error argument. -/
def update (store : Store) (req : Request) : Response × List StoreCall :=
  match store.fb req.userFacebookId with
  | Except.error _ =>
      (Response.problem HttpStatus.BAD_REQUEST
        (some "Could not save user information")
        (some "There was an error processing the request to save your information"),
       [StoreCall.fb req.userFacebookId])
  | Except.ok none =>
      (Response.problem HttpStatus.BAD_REQUEST
        (some "Could not save user information")
        (some "There was an error processing the request to save your information"),
       [StoreCall.fb req.userFacebookId])
  | Except.ok (some user) =>
      if !user.registrationDone && !(usernameValid (jsToString req.body.username)) then
        (Response.problem HttpStatus.BAD_REQUEST
          (some "Invalid Username")
          (some "User names must be 5-16 characters"),
         [StoreCall.fb req.userFacebookId])
      else
        (Response.json HttpStatus.OK
          (some (Body.user (store.save (mergedUser user req.body)).2)),
         [StoreCall.fb req.userFacebookId, StoreCall.save (mergedUser user req.body)])

/-- users.js `exports.delete` (lines 196-210): resolve the acting user via
`User.fb(req.user.facebookId)`; on error or `null` a 400 problem;
otherwise `user.remove` and respond 200 with the removal result, ignoring
the callback's error argument. -/
def deleteUser (store : Store) (req : Request) : Response × List StoreCall :=
  match store.fb req.userFacebookId with
  | Except.error _ =>
      (Response.problem HttpStatus.BAD_REQUEST
        (some "Could not delete user")
        (some "There was an error processing the request to save your information"),
       [StoreCall.fb req.userFacebookId])
  | Except.ok none =>
      (Response.problem HttpStatus.BAD_REQUEST
        (some "Could not delete user")
        (some "There was an error processing the request to save your information"),
       [StoreCall.fb req.userFacebookId])
  | Except.ok (some user) =>
      (Response.json HttpStatus.OK (some (store.remove user).2),
       [StoreCall.fb req.userFacebookId, StoreCall.remove user])

/-- users.js `exports.getMessages` (lines 221-231):
`User.getMessages(req.params.mid)`; on error, `null` document, or a
document whose `messages` field is `null` (strict `===` comparison, so an
absent field does not trigger it), `res.problem(NO_CONTENT)` with no
title or detail; otherwise 200 with the whole document. -/
def getMessages (store : Store) (req : Request) : Response × List StoreCall :=
  match store.getMessages req.paramsMid with
  | Except.error _ =>
      (Response.problem HttpStatus.NO_CONTENT none none,
       [StoreCall.getMessages req.paramsMid])
  | Except.ok none =>
      (Response.problem HttpStatus.NO_CONTENT none none,
       [StoreCall.getMessages req.paramsMid])
  | Except.ok (some doc) =>
      if doc.messages = JsVal.null then
        (Response.problem HttpStatus.NO_CONTENT none none,
         [StoreCall.getMessages req.paramsMid])
      else
        (Response.json HttpStatus.OK (some (Body.msgDoc doc)),
         [StoreCall.getMessages req.paramsMid])

/-- A concrete unregistered user, for instantiating the theorems. -/
def wUserNew : User :=
  { mid := "u1", facebookId := "fb1", username := JsVal.val "olduser",
    firstName := JsVal.val "Old", lastName := JsVal.val "Name",
    email := JsVal.val "old@example.com", avatar := JsVal.val "old.png",
    state := States.OFFLINE, registrationDone := false }

/-- A concrete user that has completed registration. -/
def wUserReg : User :=
  { wUserNew with username := JsVal.val "reguser", registrationDone := true }

/-- A concrete document whose `messages` field is `null`. -/
def wDocNull : MsgDoc := { mid := "m1", messages := JsVal.null }

/-- A concrete document with a non-null `messages` field. -/
def wDocSome : MsgDoc := { mid := "m2", messages := JsVal.val ["hello"] }

/-- A concrete Update body: valid username, truthy first name, falsy
(empty) last name, absent email and avatar, and a client-supplied id. -/
def wBodyValid : UpdateBody :=
  { id := JsVal.val "other-id", username := JsVal.val "alice",
    firstName := JsVal.val "A", lastName := JsVal.val "",
    email := JsVal.undef, avatar := JsVal.undef }

/-- The same body with an invalid (too short) username. -/
def wBodyInvalid : UpdateBody := { wBodyValid with username := JsVal.val "ab1" }

/-- The same body with no username field at all. -/
def wBodyNoUsername : UpdateBody := { wBodyValid with username := JsVal.undef }

/-- A concrete store whose `fb` lookup resolves to the unregistered user. -/
def wStoreNew : Store :=
  { fb := fun _ => Except.ok (some wUserNew),
    save := fun u => (none, u),
    remove := fun _ => (none, Body.raw "removed"),
    publicList := fun _ _ => Except.ok (some [wUserReg]),
    count := (none, some 7),
    getMessages := fun _ => Except.ok (some wDocNull) }

/-- The same store resolving to the registered user. -/
def wStoreReg : Store := { wStoreNew with fb := fun _ => Except.ok (some wUserReg) }

/-- The same store whose messages lookup yields a document with
non-null messages. -/
def wStoreMsg : Store :=
  { wStoreNew with getMessages := fun _ => Except.ok (some wDocSome) }

/-- A concrete request carrying the valid body. -/
def wReq : Request :=
  { userFacebookId := "fb1", paramsMid := "pm1", body := wBodyValid,
    querySkip := JsVal.undef, queryTake := JsVal.undef }

/-- The same request with the invalid-username body. -/
def wReqInvalid : Request := { wReq with body := wBodyInvalid }

/-- The same request with the username-free body. -/
def wReqNoUsername : Request := { wReq with body := wBodyNoUsername }

/-- A request by the same principal with a different path id and a
different client-supplied body id. -/
def wReqSpoofed : Request :=
  { wReq with paramsMid := "someone-else",
              body := { wBodyValid with id := JsVal.val "spoofed-id" } }

/-- Helper: the merged user depends only on the profile fields of the
body, not on its client-supplied `id`. -/
theorem mergedUser_body_congr (u : User) (b1 b2 : UpdateBody)
    (h2 : b1.username = b2.username) (h3 : b1.firstName = b2.firstName)
    (h4 : b1.lastName = b2.lastName) (h5 : b1.email = b2.email)
    (h6 : b1.avatar = b2.avatar) :
    mergedUser u b1 = mergedUser u b2 := by
  unfold mergedUser applyCommon
  rw [h2, h3, h4, h5, h6]

/-- C2: when the resolved user has `registrationDone = false` and the
(string-coerced) body username fails the format rule, Update emits the
400 "Invalid Username" problem with detail "User names must be 5-16
characters", and its store-call trace is the single `fb` lookup — no
`save` call, so the stored record is unmodified. -/
theorem update_invalid_username_rejected (store : Store) (req : Request) (user : User)
    (hfb : store.fb req.userFacebookId = Except.ok (some user))
    (hreg : user.registrationDone = false)
    (hval : usernameValid (jsToString req.body.username) = false) :
    update store req =
      (Response.problem HttpStatus.BAD_REQUEST
        (some "Invalid Username")
        (some "User names must be 5-16 characters"),
       [StoreCall.fb req.userFacebookId]) := by
  simp [update, hfb, hreg, hval]

/-- Witness for C2 at a concrete store, request and user. -/
theorem update_invalid_username_rejected_witness :
    wStoreNew.fb wReqInvalid.userFacebookId = Except.ok (some wUserNew) ∧
    wUserNew.registrationDone = false ∧
    usernameValid (jsToString wReqInvalid.body.username) = false ∧
    update wStoreNew wReqInvalid =
      (Response.problem HttpStatus.BAD_REQUEST
        (some "Invalid Username")
        (some "User names must be 5-16 characters"),
       [StoreCall.fb "fb1"]) :=
  ⟨rfl, rfl, by decide,
   update_invalid_username_rejected wStoreNew wReqInvalid wUserNew rfl rfl (by decide)⟩

/-- C3: when the resolved user has `registrationDone = true`, Update never
rejects on username format: it always reaches `save`, and the user
document it saves keeps the prior username, whatever the body supplied. -/
theorem update_registered_ignores_username (store : Store) (req : Request) (user : User)
    (hfb : store.fb req.userFacebookId = Except.ok (some user))
    (hreg : user.registrationDone = true) :
    update store req =
      (Response.json HttpStatus.OK
        (some (Body.user (store.save (mergedUser user req.body)).2)),
       [StoreCall.fb req.userFacebookId, StoreCall.save (mergedUser user req.body)]) ∧
    (mergedUser user req.body).username = user.username := by
  constructor
  · simp [update, hfb, hreg]
  · simp [mergedUser, applyCommon, hreg]

/-- Witness for C3 at a concrete registered user and a body that does
supply a (well-formed or not) username. -/
theorem update_registered_ignores_username_witness :
    wUserReg.registrationDone = true ∧
    update wStoreReg wReq =
      (Response.json HttpStatus.OK
        (some (Body.user (wStoreReg.save (mergedUser wUserReg wReq.body)).2)),
       [StoreCall.fb "fb1", StoreCall.save (mergedUser wUserReg wReq.body)]) ∧
    (mergedUser wUserReg wReq.body).username = wUserReg.username :=
  ⟨rfl,
   (update_registered_ignores_username wStoreReg wReq wUserReg rfl rfl).1,
   (update_registered_ignores_username wStoreReg wReq wUserReg rfl rfl).2⟩

/-- C4: whenever Update reaches `save`, the saved document has
`registrationDone = true` and `state = ONLINE`; `firstName`, `lastName`
and `email` take the body value exactly when it is truthy (falsy body
values, including the empty string, keep the prior value); `avatar` is
assigned from the body unconditionally. -/
theorem update_saved_fields (store : Store) (req : Request) (user u : User)
    (hfb : store.fb req.userFacebookId = Except.ok (some user))
    (hmem : StoreCall.save u ∈ (update store req).2) :
    u.registrationDone = true ∧
    u.state = States.ONLINE ∧
    u.firstName = (if (req.body.firstName).truthy then req.body.firstName else user.firstName) ∧
    u.lastName = (if (req.body.lastName).truthy then req.body.lastName else user.lastName) ∧
    u.email = (if (req.body.email).truthy then req.body.email else user.email) ∧
    u.avatar = req.body.avatar := by
  cases hb : !user.registrationDone && !(usernameValid (jsToString req.body.username)) with
  | true =>
      simp [update, hfb, hb] at hmem
  | false =>
      simp [update, hfb, hb] at hmem
      subst hmem
      cases hreg : user.registrationDone <;>
        simp [mergedUser, applyCommon, jsOr, hreg]

/-- Witness for C4: a concrete Update whose body has a truthy first name,
a falsy (empty-string) last name, an absent email and an absent avatar. -/
theorem update_saved_fields_witness :
    StoreCall.save (mergedUser wUserNew wReq.body) ∈ (update wStoreNew wReq).2 ∧
    ((mergedUser wUserNew wReq.body).registrationDone = true ∧
     (mergedUser wUserNew wReq.body).state = States.ONLINE ∧
     (mergedUser wUserNew wReq.body).firstName =
       (if (wReq.body.firstName).truthy then wReq.body.firstName else wUserNew.firstName) ∧
     (mergedUser wUserNew wReq.body).lastName =
       (if (wReq.body.lastName).truthy then wReq.body.lastName else wUserNew.lastName) ∧
     (mergedUser wUserNew wReq.body).email =
       (if (wReq.body.email).truthy then wReq.body.email else wUserNew.email) ∧
     (mergedUser wUserNew wReq.body).avatar = wReq.body.avatar) :=
  ⟨by decide,
   update_saved_fields wStoreNew wReq wUserNew (mergedUser wUserNew wReq.body) rfl (by decide)⟩

/-- C10: an Update request on an unregistered user whose body has no
username field at all still passes validation — `RegExp.test` coerces
`undefined` to the string "undefined", which matches the pattern — and the
saved document's username is that absent (`undefined`) value. -/
theorem update_absent_username_accepted (store : Store) (req : Request) (user : User)
    (hfb : store.fb req.userFacebookId = Except.ok (some user))
    (hreg : user.registrationDone = false)
    (hun : req.body.username = JsVal.undef) :
    usernameValid (jsToString req.body.username) = true ∧
    update store req =
      (Response.json HttpStatus.OK
        (some (Body.user (store.save (mergedUser user req.body)).2)),
       [StoreCall.fb req.userFacebookId, StoreCall.save (mergedUser user req.body)]) ∧
    (mergedUser user req.body).username = JsVal.undef := by
  have hv : usernameValid (jsToString req.body.username) = true := by
    rw [hun]; decide
  refine ⟨hv, ?_, ?_⟩
  · simp [update, hfb, hreg, hv]
  · simp [mergedUser, applyCommon, hreg, hun]

/-- Witness for C10 at a concrete unregistered user and a body with an
absent username. -/
theorem update_absent_username_accepted_witness :
    wReqNoUsername.body.username = JsVal.undef ∧
    wUserNew.registrationDone = false ∧
    usernameValid (jsToString wReqNoUsername.body.username) = true ∧
    update wStoreNew wReqNoUsername =
      (Response.json HttpStatus.OK
        (some (Body.user (wStoreNew.save (mergedUser wUserNew wReqNoUsername.body)).2)),
       [StoreCall.fb "fb1", StoreCall.save (mergedUser wUserNew wReqNoUsername.body)]) ∧
    (mergedUser wUserNew wReqNoUsername.body).username = JsVal.undef :=
  ⟨rfl, rfl,
   (update_absent_username_accepted wStoreNew wReqNoUsername wUserNew rfl rfl rfl).1,
   (update_absent_username_accepted wStoreNew wReqNoUsername wUserNew rfl rfl rfl).2.1,
   (update_absent_username_accepted wStoreNew wReqNoUsername wUserNew rfl rfl rfl).2.2⟩

/-- C5: Update and Delete resolve the record they act on solely from the
authenticated principal's `facebookId` via the store's `fb`
(findByExternalId) lookup: the first (and resolving) store call is always
`fb req.user.facebookId`, and two requests by the same principal whose
bodies agree on the profile fields — but may differ arbitrarily in the
path id and the client-supplied body id — produce identical responses and
identical store-call traces. -/
theorem update_delete_principal_scoped (store : Store) (req1 req2 : Request)
    (h1 : req1.userFacebookId = req2.userFacebookId)
    (h2 : req1.body.username = req2.body.username)
    (h3 : req1.body.firstName = req2.body.firstName)
    (h4 : req1.body.lastName = req2.body.lastName)
    (h5 : req1.body.email = req2.body.email)
    (h6 : req1.body.avatar = req2.body.avatar) :
    update store req1 = update store req2 ∧
    deleteUser store req1 = deleteUser store req2 ∧
    (update store req1).2.head? = some (StoreCall.fb req1.userFacebookId) ∧
    (deleteUser store req1).2.head? = some (StoreCall.fb req1.userFacebookId) := by
  refine ⟨?_, ?_, ?_, ?_⟩
  · cases hfb : store.fb req2.userFacebookId with
    | error e =>
        have hfb1 : store.fb req1.userFacebookId = Except.error e := by rw [h1, hfb]
        simp [update, hfb1, hfb, h1]
    | ok o =>
        have hfb1 : store.fb req1.userFacebookId = Except.ok o := by rw [h1, hfb]
        cases o with
        | none => simp [update, hfb1, hfb, h1]
        | some user =>
            have hm := mergedUser_body_congr user req1.body req2.body h2 h3 h4 h5 h6
            simp [update, hfb1, hfb, h1, h2, hm]
  · cases hfb : store.fb req2.userFacebookId with
    | error e =>
        have hfb1 : store.fb req1.userFacebookId = Except.error e := by rw [h1, hfb]
        simp [deleteUser, hfb1, hfb, h1]
    | ok o =>
        have hfb1 : store.fb req1.userFacebookId = Except.ok o := by rw [h1, hfb]
        cases o with
        | none => simp [deleteUser, hfb1, hfb, h1]
        | some user => simp [deleteUser, hfb1, hfb, h1]
  · cases hfb : store.fb req1.userFacebookId with
    | error e => simp [update, hfb]
    | ok o =>
        cases o with
        | none => simp [update, hfb]
        | some user =>
            simp only [update, hfb]
            split <;> rfl
  · cases hfb : store.fb req1.userFacebookId with
    | error e => simp [deleteUser, hfb]
    | ok o =>
        cases o with
        | none => simp [deleteUser, hfb]
        | some user => simp [deleteUser, hfb]

/-- Witness for C5: the same principal with a spoofed path id and body id
gets exactly the same response and trace. -/
theorem update_delete_principal_scoped_witness :
    wReq.userFacebookId = wReqSpoofed.userFacebookId ∧
    wReq.paramsMid ≠ wReqSpoofed.paramsMid ∧
    wReq.body.id ≠ wReqSpoofed.body.id ∧
    update wStoreNew wReq = update wStoreNew wReqSpoofed ∧
    deleteUser wStoreNew wReq = deleteUser wStoreNew wReqSpoofed ∧
    (update wStoreNew wReq).2.head? = some (StoreCall.fb "fb1") ∧
    (deleteUser wStoreNew wReq).2.head? = some (StoreCall.fb "fb1") :=
  ⟨rfl, by decide, by decide,
   (update_delete_principal_scoped wStoreNew wReq wReqSpoofed rfl rfl rfl rfl rfl rfl).1,
   (update_delete_principal_scoped wStoreNew wReq wReqSpoofed rfl rfl rfl rfl rfl rfl).2.1,
   (update_delete_principal_scoped wStoreNew wReq wReqSpoofed rfl rfl rfl rfl rfl rfl).2.2.1,
   (update_delete_principal_scoped wStoreNew wReq wReqSpoofed rfl rfl rfl rfl rfl rfl).2.2.2⟩

/-- C6: whenever Update reaches `save` (resp. Delete reaches `remove`),
the handler responds 200 OK with the callback's result, without
inspecting the callback's error argument: replacing the error component
of the callback by any value — a failure included — leaves the response
unchanged. -/
theorem mutate_response_ignores_callback_error (store : Store) (req : Request)
    (e : Option String) :
    (∀ u : User, StoreCall.save u ∈ (update store req).2 →
      (update store req).1 =
        Response.json HttpStatus.OK (some (Body.user (store.save u).2)) ∧
      (update { store with save := fun x => (e, (store.save x).2) } req).1 =
        (update store req).1) ∧
    (∀ u : User, StoreCall.remove u ∈ (deleteUser store req).2 →
      (deleteUser store req).1 =
        Response.json HttpStatus.OK (some (store.remove u).2) ∧
      (deleteUser { store with remove := fun x => (e, (store.remove x).2) } req).1 =
        (deleteUser store req).1) := by
  constructor
  · intro u hmem
    cases hfb : store.fb req.userFacebookId with
    | error er => simp [update, hfb] at hmem
    | ok o =>
        cases o with
        | none => simp [update, hfb] at hmem
        | some user =>
            cases hb : !user.registrationDone && !(usernameValid (jsToString req.body.username)) with
            | true => simp [update, hfb, hb] at hmem
            | false =>
                simp [update, hfb, hb] at hmem
                subst hmem
                constructor
                · simp [update, hfb, hb]
                · simp [update, hfb, hb]
  · intro u hmem
    cases hfb : store.fb req.userFacebookId with
    | error er => simp [deleteUser, hfb] at hmem
    | ok o =>
        cases o with
        | none => simp [deleteUser, hfb] at hmem
        | some user =>
            simp [deleteUser, hfb] at hmem
            subst hmem
            constructor
            · simp [deleteUser, hfb]
            · simp [deleteUser, hfb]

/-- Witness for C6: a concrete Update and Delete where the store callback
reports an error, yet the response is the same 200 as on success. -/
theorem mutate_response_ignores_callback_error_witness :
    StoreCall.save (mergedUser wUserNew wReq.body) ∈ (update wStoreNew wReq).2 ∧
    (update wStoreNew wReq).1 =
      Response.json HttpStatus.OK
        (some (Body.user (wStoreNew.save (mergedUser wUserNew wReq.body)).2)) ∧
    (update { wStoreNew with
        save := fun x => (some "disk failure", (wStoreNew.save x).2) } wReq).1 =
      (update wStoreNew wReq).1 ∧
    StoreCall.remove wUserNew ∈ (deleteUser wStoreNew wReq).2 ∧
    (deleteUser wStoreNew wReq).1 =
      Response.json HttpStatus.OK (some (wStoreNew.remove wUserNew).2) ∧
    (deleteUser { wStoreNew with
        remove := fun x => (some "disk failure", (wStoreNew.remove x).2) } wReq).1 =
      (deleteUser wStoreNew wReq).1 :=
  ⟨by decide,
   ((mutate_response_ignores_callback_error wStoreNew wReq (some "disk failure")).1
     (mergedUser wUserNew wReq.body) (by decide)).1,
   ((mutate_response_ignores_callback_error wStoreNew wReq (some "disk failure")).1
     (mergedUser wUserNew wReq.body) (by decide)).2,
   by decide,
   ((mutate_response_ignores_callback_error wStoreNew wReq (some "disk failure")).2
     wUserNew (by decide)).1,
   ((mutate_response_ignores_callback_error wStoreNew wReq (some "disk failure")).2
     wUserNew (by decide)).2⟩

/-- C7: GetMessages emits the bodiless, title-less, detail-less
no-content response — whose status 204 is in the HTTP success class —
exactly when the store errors, returns a null document, or returns a
document whose `messages` field is `null`; in every other case (a merely
absent `messages` field included) it emits 200 OK with the full
document. -/
theorem getMessages_no_content_cases (store : Store) (req : Request) :
    isSuccessStatus HttpStatus.NO_CONTENT = true ∧
    ((getMessages store req).1 = Response.problem HttpStatus.NO_CONTENT none none ↔
      store.getMessages req.paramsMid = Except.error () ∨
      store.getMessages req.paramsMid = Except.ok none ∨
      ∃ doc, store.getMessages req.paramsMid = Except.ok (some doc) ∧
        doc.messages = JsVal.null) ∧
    (∀ doc, store.getMessages req.paramsMid = Except.ok (some doc) →
      doc.messages ≠ JsVal.null →
      (getMessages store req).1 = Response.json HttpStatus.OK (some (Body.msgDoc doc))) := by
  refine ⟨by decide, ?_, ?_⟩
  · cases hgm : store.getMessages req.paramsMid with
    | error e => simp [getMessages, hgm]
    | ok o =>
        cases o with
        | none => simp [getMessages, hgm]
        | some doc =>
            by_cases hnull : doc.messages = JsVal.null
            · simp [getMessages, hgm, hnull]
            · simp [getMessages, hgm, hnull, HttpStatus.OK, HttpStatus.NO_CONTENT]
  · intro doc hgm hnull
    simp [getMessages, hgm, hnull]

/-- Witness for C7: a null-messages document yields the no-content
response; a document with messages yields 200 with the document. -/
theorem getMessages_no_content_cases_witness :
    wDocNull.messages = JsVal.null ∧
    (getMessages wStoreNew wReq).1 = Response.problem HttpStatus.NO_CONTENT none none ∧
    wDocSome.messages ≠ JsVal.null ∧
    (getMessages wStoreMsg wReq).1 = Response.json HttpStatus.OK (some (Body.msgDoc wDocSome)) :=
  ⟨rfl,
   ((getMessages_no_content_cases wStoreNew wReq).2.1).mpr
     (Or.inr (Or.inr ⟨wDocNull, rfl, rfl⟩)),
   by decide,
   (getMessages_no_content_cases wStoreMsg wReq).2.2 wDocSome rfl (by decide)⟩

/-- C8: List with a non-empty store result issues exactly one `count`
call, ordered after the `publicList` call, and responds 200 OK with
`meta.total = count || 0` (0 when the count is absent or zero-falsy);
with a null or empty result it responds no-content without calling
`count`; when the list call fails it responds with the 500 problem whose
detail is "Could not list users due to internal error". -/
theorem list_count_contract (store : Store) (req : Request) :
    (∀ results : List User,
      store.publicList req.querySkip req.queryTake = Except.ok (some results) →
      results ≠ [] →
      list store req =
        (Response.json HttpStatus.OK
          (some (Body.listing (store.count.2.getD 0) results)),
         [StoreCall.publicList req.querySkip req.queryTake, StoreCall.count])) ∧
    (∀ results : List User,
      store.publicList req.querySkip req.queryTake = Except.ok (some results) →
      results = [] →
      list store req =
        (Response.json HttpStatus.NO_CONTENT none,
         [StoreCall.publicList req.querySkip req.queryTake])) ∧
    (store.publicList req.querySkip req.queryTake = Except.ok none →
      list store req =
        (Response.json HttpStatus.NO_CONTENT none,
         [StoreCall.publicList req.querySkip req.queryTake])) ∧
    (store.publicList req.querySkip req.queryTake = Except.error () →
      list store req =
        (Response.problem HttpStatus.INTERNAL_SERVER_ERROR
          (some "Unexpected problem")
          (some "Could not list users due to internal error"),
         [StoreCall.publicList req.querySkip req.queryTake])) ∧
    ((store.count.2 = none ∨ store.count.2 = some 0) → store.count.2.getD 0 = 0) := by
  refine ⟨?_, ?_, ?_, ?_, ?_⟩
  · intro results hl hne
    have hlen : ¬ results.length = 0 := by
      simpa [List.length_eq_zero] using hne
    simp [list, hl, hlen]
  · intro results hl he
    subst he
    simp [list, hl]
  · intro hl
    simp [list, hl]
  · intro hl
    simp [list, hl]
  · rintro (h | h) <;> simp [h]

/-- Witness for C8: a concrete store with one listed user and count 7. -/
theorem list_count_contract_witness :
    wStoreNew.publicList wReq.querySkip wReq.queryTake = Except.ok (some [wUserReg]) ∧
    ([wUserReg] : List User) ≠ [] ∧
    list wStoreNew wReq =
      (Response.json HttpStatus.OK
        (some (Body.listing (wStoreNew.count.2.getD 0) [wUserReg])),
       [StoreCall.publicList wReq.querySkip wReq.queryTake, StoreCall.count]) :=
  ⟨rfl, by decide,
   (list_count_contract wStoreNew wReq).1 [wUserReg] rfl (by decide)⟩

/-- C9: Create always emits the 405 "method not allowed" problem with the
fixed title and the detail explaining that accounts are created via
third-party (Facebook) authentication, and issues no store call. -/
theorem create_always_rejected (store : Store) (req : Request) :
    create store req =
      (Response.problem HttpStatus.METHOD_NOT_ALLOWED
        (some "You\x27re not allowed to create users on this system")
        (some "Users are created via 3rd party (Facebook) authentication"),
       []) ∧
    (create store req).2 = [] :=
  ⟨rfl, rfl⟩

end Yfa
